import Mathlib

/-! xen_shm: shared-memory module and pipe writer

A shallow embedding of `xen_shm.h`, `xen_shm.c` and `test/pipe_writer.c`.

* Machine integers are natural numbers or integers with explicit reduction
  modulo `2 ^ 32` / `2 ^ 64` at the places where the C types wrap.
* Kernel and library primitives (`kmalloc`, `access_ok`, `__get_user`,
  `__put_user`, `read`) and the pipe library call `xen_shm_pipe_write`, whose
  bodies are not among the three files, are oracles: their results are
  parameters.
* Variables that C leaves uninitialised are `Option` values, `none` meaning
  "never assigned".
-/

namespace XenShm

/-! ## `xen_shm.h` -/

/-- The maximum number of aligned pages that can be provided. -/
def XEN_SHM_ALLOC_ALIGNED_PAGES : Nat := 16

/-- The maximum number of pages the module can provide to the user. -/
def XEN_SHM_MAX_SHARED_PAGES : Nat := XEN_SHM_ALLOC_ALIGNED_PAGES - 1

def XEN_SHM_IOCTL_INIT_OFFERER : Nat := 0xf01
def XEN_SHM_IOCTL_INIT_RECEIVER : Nat := 0xf02
def XEN_SHM_IOCTL_WAIT : Nat := 0xf03
def XEN_SHM_IOCTL_SSIG : Nat := 0xf04

/-! ## Linux definitions used by `xen_shm.c` (`asm-generic/ioctl.h`, `errno-base.h`) -/

def ENOMEM : Int := 12
def EFAULT : Int := 14
def ENOTTY : Int := 25

def IOC_NRBITS : Nat := 8
def IOC_TYPEBITS : Nat := 8
def IOC_SIZEBITS : Nat := 14
def IOC_DIRBITS : Nat := 2

def IOC_NRSHIFT : Nat := 0
def IOC_TYPESHIFT : Nat := IOC_NRSHIFT + IOC_NRBITS
def IOC_SIZESHIFT : Nat := IOC_TYPESHIFT + IOC_TYPEBITS
def IOC_DIRSHIFT : Nat := IOC_SIZESHIFT + IOC_SIZEBITS

def IOC_WRITE : Nat := 1
def IOC_READ : Nat := 2

/-- The macro `_IOC_DIR(nr)`: `((nr) >> _IOC_DIRSHIFT) & _IOC_DIRMASK`. -/
def IOC_DIR (nr : Nat) : Nat := (nr >>> IOC_DIRSHIFT) &&& (2 ^ IOC_DIRBITS - 1)

/-- The macro `_IOC_TYPE(nr)`: `((nr) >> _IOC_TYPESHIFT) & _IOC_TYPEMASK`. -/
def IOC_TYPE (nr : Nat) : Nat := (nr >>> IOC_TYPESHIFT) &&& (2 ^ IOC_TYPEBITS - 1)

/-- The macro `_IOC_SIZE(nr)`: `((nr) >> _IOC_SIZESHIFT) & _IOC_SIZEMASK`. -/
def IOC_SIZE (nr : Nat) : Nat := (nr >>> IOC_SIZESHIFT) &&& (2 ^ IOC_SIZEBITS - 1)

def VERIFY_READ : Nat := 0
def VERIFY_WRITE : Nat := 1

/-! ## `xen_shm.c`: states and data -/

def XEN_SHM_STATE_OPENED : Nat := 0x01
def XEN_SHM_STATE_OFFERER : Nat := 0x02
def XEN_SHM_STATE_RECEIVER : Nat := 0x03
def XEN_SHM_STATE_HALF_CLOSED : Nat := 0x04

/-- The struct `xen_shm_instance_data`, stored behind `filp->private_data`. -/
structure xen_shm_instance_data where
  state : Nat
  pages_count : Nat
  pages_phys_addr : Nat
  local_domid : Nat
  distant_domid : Nat
  grant_map_handles : List Nat
  local_ec_port : Nat
  dist_ec_port : Nat
deriving DecidableEq, Repr

/-- Number of slots of `grant_map_handles` in `xen_shm_instance_data`. -/
def grant_map_handles_len : Nat := XEN_SHM_ALLOC_ALIGNED_PAGES

/-- Number of slots of `grant_refs` in `xen_shm_meta_page_data`. -/
def grant_refs_len : Nat := XEN_SHM_ALLOC_ALIGNED_PAGES

/-- Number of values of the `uint8_t` field `pages_count`. -/
def UINT8_RANGE : Nat := 2 ^ 8

/-- The struct `xen_shm_meta_page_data`, the first page of a shared region. -/
structure xen_shm_meta_page_data where
  offerer_closed : Nat
  receiver_closed : Nat
  pages_count : Nat
  offerer_ec_port : Nat
  grant_refs : List Nat
deriving DecidableEq, Repr

/-- The part of `struct file` the module uses: `private_data`, `none` being `NULL`. -/
structure file where
  private_data : Option Nat
deriving DecidableEq, Repr

/-- The live `kmalloc` blocks holding instance data, by address. -/
abbrev Heap := Nat → Option xen_shm_instance_data

/-! ## `xen_shm_open` -/

/-- Result of `xen_shm_open`: return value, the file and the heap afterwards. -/
structure OpenResult where
  ret : Int
  filp : file
  heap : Heap

/-- The function `xen_shm_open`. `xen_shm_domid` is the module-scope value and
`kmalloc` the result of the allocation: `none` for `NULL`, otherwise the
address of the block and its (arbitrary) initial contents. Only `state` and
`local_domid` are assigned. -/
def xen_shm_open (xen_shm_domid : Nat) (kmalloc : Option (Nat × xen_shm_instance_data))
    (heap : Heap) (filp : file) : OpenResult :=
  match kmalloc with
  | none => { ret := -ENOMEM, filp := filp, heap := heap }
  | some (p, block) =>
    let instance_data :=
      { block with state := XEN_SHM_STATE_OPENED, local_domid := xen_shm_domid }
    { ret := 0
      filp := { filp with private_data := some p }
      heap := Function.update heap p (some instance_data) }

/-! ## `xen_shm_release` -/

/-- The steps a release could take on the shared resources, in order. -/
inductive ReleaseStep where
  | observe_receiver_closed (value : Nat)
  | kfree_instance (p : Option Nat)
  | end_grant (ref : Nat)
  | free_region
deriving DecidableEq, Repr

/-- Result of `xen_shm_release`: return value, heap afterwards, steps taken. -/
structure ReleaseResult where
  ret : Int
  heap : Heap
  steps : List ReleaseStep

/-- The function `kfree` on the instance heap; `kfree(NULL)` does nothing. -/
def kfree (heap : Heap) (p : Option Nat) : Heap :=
  match p with
  | none => heap
  | some a => Function.update heap a none

/-- The function `xen_shm_release`: its whole body is `kfree(filp->private_data)`
followed by `return 0`. -/
def xen_shm_release (heap : Heap) (filp : file) : ReleaseResult :=
  { ret := 0
    heap := kfree heap filp.private_data
    steps := [ReleaseStep.kfree_instance filp.private_data] }

/-- Kernel and user memory as seen by one `xen_shm_ioctl` call: the C object
stored at each address. -/
abbrev Mem := Nat → Nat

/-- What `xen_shm_ioctl` uses without `xen_shm.h` defining it, the stack frame
of the call, and the results of the primitives it calls.

* `XEN_SHM_MAGIC_NUMBER`, `XEN_SHM_IOCTL_GET_DOMID`: constants used by the
  function and absent from the header;
* `local_domid_offset`: position of the field `local_domid` inside
  `struct xen_shm_ioctlarg_getdomid`, a type the header does not declare;
* `access_ok type addr size`: result of the kernel check;
* `get_user_ret`, `put_user_ret`: return values of `__get_user`, `__put_user`;
* `addr_arg`, `addr_offerer_karg`, `addr_reveiver_karg`, `addr_getdomid_karg`:
  addresses of the parameter `arg` and of the three local structures, whose
  addresses the function takes. -/
structure IoctlEnv where
  XEN_SHM_MAGIC_NUMBER : Nat
  XEN_SHM_IOCTL_GET_DOMID : Nat
  local_domid_offset : Nat
  access_ok : Nat → Nat → Nat → Bool
  get_user_ret : Int
  put_user_ret : Int
  addr_arg : Nat
  addr_offerer_karg : Nat
  addr_reveiver_karg : Nat
  addr_getdomid_karg : Nat

/-- A call of one of the unchecked user-copy primitives, with the address
expressions it was given. -/
inductive UserCopy where
  | get_user (src : Nat)
  | put_user (value : Nat) (dst : Nat)
deriving DecidableEq, Repr

/-- A call `access_ok(type, addr, size)`. -/
structure AccessCheck where
  type : Nat
  addr : Nat
  size : Nat
deriving DecidableEq, Repr

/-- Result of `xen_shm_ioctl`: the returned value (`none` when the function
returns `retval` without ever having assigned it), memory and instance data
afterwards, and the access checks and user copies performed, in order. -/
structure IoctlResult where
  ret : Option Int
  mem : Mem
  instance_data : xen_shm_instance_data
  checks : List AccessCheck
  copies : List UserCopy

/-- The Linux primitive `__put_user(x, ptr)`: store the value `x` at the address
`ptr` without checking `ptr`; returns zero on success and an error otherwise,
in which case nothing is stored. -/
def put_user (ret : Int) (x ptr : Nat) (mem : Mem) : Int × Mem :=
  (ret, if ret = 0 then Function.update mem ptr x else mem)

/-- The "Testing fault" block of `xen_shm_ioctl`: the access check selected by
the direction bits of `cmd`, if any. -/
def ioctl_access_checks (cmd arg : Nat) : List AccessCheck :=
  if IOC_DIR cmd &&& IOC_READ ≠ 0 then
    [{ type := VERIFY_WRITE, addr := arg, size := IOC_SIZE cmd }]
  else if IOC_DIR cmd &&& IOC_WRITE ≠ 0 then
    [{ type := VERIFY_READ, addr := arg, size := IOC_SIZE cmd }]
  else
    []

/-- The function `xen_shm_ioctl`.

The parameter `arg` occupies the stack slot `env.addr_arg`. Each `INIT_*` case
is `retval = __get_user(&karg, &arg); if (retval != 0) break;
retval = __put_user(&karg, &arg); break;`: the source of the first copy and
the destination of the second are both `&arg`, the slot of the parameter, and
the value put is the address of the local structure. The first argument of
`__get_user` is not an assignable object, so the fetched value lands nowhere.
The cases `WAIT` and `SSIG` are a bare `break`. No case assigns a field of
the instance data. -/
def xen_shm_ioctl (env : IoctlEnv) (instance_data : xen_shm_instance_data) (mem : Mem)
    (cmd arg : Nat) : IoctlResult :=
  let mem0 : Mem := Function.update mem env.addr_arg arg
  if IOC_TYPE cmd ≠ env.XEN_SHM_MAGIC_NUMBER then
    { ret := some (-ENOTTY), mem := mem0, instance_data := instance_data,
      checks := [], copies := [] }
  else
    let checks := ioctl_access_checks cmd arg
    let err := checks.any (fun c => !env.access_ok c.type c.addr c.size)
    if err then
      { ret := some (-EFAULT), mem := mem0, instance_data := instance_data,
        checks := checks, copies := [] }
    else if cmd = XEN_SHM_IOCTL_INIT_OFFERER then
      if env.get_user_ret ≠ 0 then
        { ret := some env.get_user_ret, mem := mem0, instance_data := instance_data,
          checks := checks, copies := [UserCopy.get_user env.addr_arg] }
      else
        let r := put_user env.put_user_ret env.addr_offerer_karg env.addr_arg mem0
        { ret := some r.1, mem := r.2, instance_data := instance_data,
          checks := checks,
          copies := [UserCopy.get_user env.addr_arg,
                     UserCopy.put_user env.addr_offerer_karg env.addr_arg] }
    else if cmd = XEN_SHM_IOCTL_INIT_RECEIVER then
      if env.get_user_ret ≠ 0 then
        { ret := some env.get_user_ret, mem := mem0, instance_data := instance_data,
          checks := checks, copies := [UserCopy.get_user env.addr_arg] }
      else
        let r := put_user env.put_user_ret env.addr_reveiver_karg env.addr_arg mem0
        { ret := some r.1, mem := r.2, instance_data := instance_data,
          checks := checks,
          copies := [UserCopy.get_user env.addr_arg,
                     UserCopy.put_user env.addr_reveiver_karg env.addr_arg] }
    else if cmd = XEN_SHM_IOCTL_WAIT then
      { ret := none, mem := mem0, instance_data := instance_data,
        checks := checks, copies := [] }
    else if cmd = XEN_SHM_IOCTL_SSIG then
      { ret := none, mem := mem0, instance_data := instance_data,
        checks := checks, copies := [] }
    else if cmd = env.XEN_SHM_IOCTL_GET_DOMID then
      let mem1 : Mem :=
        Function.update mem0 (env.addr_getdomid_karg + env.local_domid_offset)
          instance_data.local_domid
      let r := put_user env.put_user_ret env.addr_getdomid_karg env.addr_arg mem1
      { ret := some r.1, mem := r.2, instance_data := instance_data,
        checks := checks,
        copies := [UserCopy.put_user env.addr_getdomid_karg env.addr_arg] }
    else
      { ret := some (-ENOTTY), mem := mem0, instance_data := instance_data,
        checks := checks, copies := [] }

/-- An instance as `xen_shm_open` leaves it when the allocated block held zeros
and the module was loaded with `xen_shm_domid = domid`. -/
def opened_instance (domid : Nat) : xen_shm_instance_data :=
  { state := XEN_SHM_STATE_OPENED, pages_count := 0, pages_phys_addr := 0,
    local_domid := domid, distant_domid := 0, grant_map_handles := [],
    local_ec_port := 0, dist_ec_port := 0 }

/-- A concrete call environment: magic number `0x0f` (the type byte of the
command numbers `0xf01`..`0xf04`), `GET_DOMID` numbered `0xf05`, every user
copy succeeding, `access_ok` answering `ok` for every pointer, and the stack
frame at `5000`.. while user pointers are small. -/
def sample_env (ok : Bool) : IoctlEnv :=
  { XEN_SHM_MAGIC_NUMBER := 0x0f, XEN_SHM_IOCTL_GET_DOMID := 0xf05,
    local_domid_offset := 0, access_ok := fun _ _ _ => ok,
    get_user_ret := 0, put_user_ret := 0,
    addr_arg := 5000, addr_offerer_karg := 5008, addr_reveiver_karg := 5016,
    addr_getdomid_karg := 5024 }

/-! ## `test/pipe_writer.c` -/

def BUFFER_SIZE : Nat := 512

/-- Number of values of `uint32_t` (`checksum`, `sent_bytes`). -/
def UINT32_RANGE : Nat := 2 ^ 32

/-- Number of values of `size_t` (`offset`, `msg_len`). -/
def SIZE_RANGE : Nat := 2 ^ 64

/-- The conversion `(int) offset` of a `size_t` value. -/
def to_int (n : Nat) : Int :=
  if n % 2 ^ 32 < 2 ^ 31 then ((n % 2 ^ 32 : Nat) : Int) else ((n % 2 ^ 32 : Nat) : Int) - 2 ^ 32

/-- The variables of `main` and the two file-scope counters, once the pipe is
connected. `checksum` is `none` after an element outside `buffer` was read.
`accepted` and `indices` are ghost fields: the bytes the successive
`xen_shm_pipe_write` calls took over, concatenated in call order, and the
subscripts at which the checksum loop read `buffer`. -/
structure WriterVars where
  buffer : List Nat
  offset : Nat
  msg_len : Nat
  checksum : Option Nat
  sent_bytes : Nat
  accepted : List Nat
  indices : List Int
deriving DecidableEq, Repr

/-- The element `buffer[idx]` of `uint8_t buffer[BUFFER_SIZE]`; `none` outside
the array. -/
def buffer_at (buffer : List Nat) (idx : Int) : Option Nat :=
  if 0 ≤ idx ∧ idx < (BUFFER_SIZE : Int) then buffer[idx.toNat]? else none

/-- One pass of the body of `for(i=0; i<retval; ++i)`:
`checksum = checksum + ((uint32_t) buffer[((int) offset) + i] + 10)
 * ((uint32_t) buffer[((int) offset) + i] + 20)`. -/
def checksum_add (buffer : List Nat) (offset : Nat) (checksum : Option Nat) (i : Nat) :
    Option Nat :=
  match checksum, buffer_at buffer (to_int offset + (i : Int)) with
  | some c, some b =>
    some ((c + ((b + 10) % UINT32_RANGE) * ((b + 20) % UINT32_RANGE) % UINT32_RANGE)
      % UINT32_RANGE)
  | _, _ => none

/-- The loop `for(i=0; i<retval; ++i)` of `main`, run with the value `offset`
has when the loop starts. -/
def checksum_loop (buffer : List Nat) (offset : Nat) (retval : Int) (checksum : Option Nat) :
    Option Nat :=
  (List.range retval.toNat).foldl (checksum_add buffer offset) checksum

/-- The body of `while(offset != msg_len)` after a call
`retval = xen_shm_pipe_write(pipe, buffer+offset, msg_len-offset)` with
`retval > 0`: `offset += (size_t) retval; sent_bytes += retval;` and then the
checksum loop, which therefore runs with the already advanced `offset`. -/
def write_iter (v : WriterVars) (retval : Int) : WriterVars :=
  let offset := (v.offset + retval.toNat) % SIZE_RANGE
  { v with
    offset := offset
    sent_bytes := (v.sent_bytes + retval.toNat) % UINT32_RANGE
    checksum := checksum_loop v.buffer offset retval v.checksum
    accepted := v.accepted ++ (v.buffer.drop v.offset).take retval.toNat
    indices := v.indices ++ (List.range retval.toNat).map (fun i => to_int offset + (i : Int)) }

/-- The effect of `read(0, buffer, BUFFER_SIZE)` storing `chunk`. -/
def read_into (buffer chunk : List Nat) : List Nat :=
  chunk ++ buffer.drop chunk.length

/-- The statements `msg_len = (size_t) stdin_read; offset = 0;` after a read that
stored `chunk`. -/
def begin_chunk (v : WriterVars) (chunk : List Nat) : WriterVars :=
  { v with buffer := read_into v.buffer chunk, msg_len := chunk.length, offset := 0 }

/-- How a run of the inner `while` ends: the loop condition became false, the
branch `retval <= 0` called `clean(0)`, or the run was cut off with the loop
still going. -/
inductive LoopOutcome where
  | finished (v : WriterVars)
  | cleaned (v : WriterVars)
  | running (v : WriterVars)
deriving DecidableEq, Repr

/-- The loop `while(offset != msg_len)` of `main`. `rs k` is the result of the
`k`-th call `xen_shm_pipe_write(pipe, buffer+offset, msg_len-offset)` of the
process; `fuel` bounds the number of iterations. -/
def inner_loop (rs : Nat → Int) : Nat → Nat → WriterVars → LoopOutcome
  | 0, _, v => if v.offset = v.msg_len then LoopOutcome.finished v else LoopOutcome.running v
  | fuel + 1, k, v =>
    if v.offset = v.msg_len then LoopOutcome.finished v
    else
      let retval := rs k
      if retval ≤ 0 then LoopOutcome.cleaned v
      else inner_loop rs fuel (k + 1) (write_iter v retval)

/-- The sum of the `j` write results from the `k`-th on: what `offset` has
advanced by after these calls. -/
def results_sum (rs : Nat → Int) : Nat → Nat → Nat
  | _, 0 => 0
  | k, j + 1 => (rs k).toNat + results_sum rs (k + 1) j

/-- The checksum the writer is meant to print: the sum modulo `2 ^ 32` of
`(b + 10) * (b + 20)` over the bytes `b` handed to the pipe. -/
def checksum_of_bytes (bytes : List Nat) : Nat :=
  (bytes.map (fun b => (b + 10) * (b + 20))).sum % UINT32_RANGE

/-- The variables at `checksum = 0; sent_bytes = 0;`, with `buffer` holding
`stale`. -/
def initial_vars (stale : List Nat) : WriterVars :=
  { buffer := stale, offset := 0, msg_len := 0, checksum := some 0, sent_bytes := 0,
    accepted := [], indices := [] }

/-- Write results: every call takes `n` bytes. -/
def write_each (n : Int) : Nat → Int := fun _ => n

/-! ### The process after `signal(SIGINT, clean)` -/

/-- Where control is: about to call `read`, about to call
`xen_shm_pipe_write`, inside `clean` about to call `xen_shm_pipe_free`, inside
`clean` after that call and about to call `exit`, or gone. -/
inductive Pc where
  | at_read
  | at_write
  | clean_free
  | clean_exit
  | exited
deriving DecidableEq, Repr

/-- What happens next: `read` returns having stored `chunk` (empty at end of
file), `read` fails, `xen_shm_pipe_write` returns `ret`, the next statement of
`clean` runs, or a `SIGINT` is delivered. -/
inductive Inp where
  | stdin (chunk : List Nat)
  | stdin_error
  | wr (ret : Int)
  | tick
  | sigint
deriving DecidableEq, Repr

/-- The calls the claims speak about. -/
inductive Ev where
  | write
  | free
  | exit
deriving DecidableEq, Repr

/-- The process: program counter, variables, whether the `SIGINT` handler is
running (the signal is blocked while it does), and the calls made so far. -/
structure Proc where
  pc : Pc
  vars : WriterVars
  in_handler : Bool
  evs : List Ev
deriving DecidableEq, Repr

/-- One step of the process. A delivered `SIGINT` runs the handler `clean`, from
wherever `main` is, unless the process is gone or the handler is already
running. `clean` calls `xen_shm_pipe_free` and then `exit(0)`; `main` calls
`clean(0)` when `read` returns zero or less and when a write returns zero or
less. -/
def step (p : Proc) : Inp → Proc
  | Inp.sigint =>
    if p.pc = Pc.exited ∨ p.in_handler = true then p
    else { p with pc := Pc.clean_free, in_handler := true }
  | Inp.stdin chunk =>
    if p.pc = Pc.at_read then
      if 0 < chunk.length then
        let v := begin_chunk p.vars chunk
        { p with vars := v, pc := if v.offset = v.msg_len then Pc.at_read else Pc.at_write }
      else { p with pc := Pc.clean_free }
    else p
  | Inp.stdin_error =>
    if p.pc = Pc.at_read then { p with pc := Pc.clean_free } else p
  | Inp.wr ret =>
    if p.pc = Pc.at_write then
      if ret ≤ 0 then { p with evs := p.evs ++ [Ev.write], pc := Pc.clean_free }
      else
        let v := write_iter p.vars ret
        { p with evs := p.evs ++ [Ev.write], vars := v,
                 pc := if v.offset = v.msg_len then Pc.at_read else Pc.at_write }
    else p
  | Inp.tick =>
    match p.pc with
    | Pc.clean_free => { p with evs := p.evs ++ [Ev.free], pc := Pc.clean_exit }
    | Pc.clean_exit => { p with evs := p.evs ++ [Ev.exit], pc := Pc.exited }
    | _ => p

/-- The process run over a sequence of happenings. -/
def run (p : Proc) (inputs : List Inp) : Proc :=
  inputs.foldl step p

/-- The process right after `signal(SIGINT, clean); checksum = 0; sent_bytes = 0;`. -/
def connected (stale : List Nat) : Proc :=
  { pc := Pc.at_read, vars := initial_vars stale, in_handler := false, evs := [] }

/-- Whether a `xen_shm_pipe_write` follows a `xen_shm_pipe_free` in a sequence of
calls. -/
def write_after_free : List Ev → Bool
  | [] => false
  | Ev.free :: rest => rest.contains Ev.write || write_after_free rest
  | _ :: rest => write_after_free rest

/-- What holds of the process at every moment: no write follows a free, and the
number of `xen_shm_pipe_free` calls made so far matches where control is. -/
def ProcInv (p : Proc) : Prop :=
  write_after_free p.evs = false ∧
    match p.pc with
    | Pc.at_read => p.in_handler = false ∧ p.evs.count Ev.free = 0
    | Pc.at_write => p.in_handler = false ∧ p.evs.count Ev.free = 0
    | Pc.clean_free =>
      p.evs.count Ev.free = 0 ∨ (p.evs.count Ev.free = 1 ∧ p.in_handler = true)
    | Pc.clean_exit =>
      p.evs.count Ev.free = 1 ∨ (p.evs.count Ev.free = 2 ∧ p.in_handler = true)
    | Pc.exited => 1 ≤ p.evs.count Ev.free ∧ p.evs.count Ev.free ≤ 2

/-! ## Concrete inputs -/

/-- The variables after 4294967295 bytes have been sent, `buffer` holding zeros. -/
def wrap_vars : WriterVars :=
  { initial_vars (List.replicate 512 0) with sent_bytes := 4294967295 }

/-- A heap with no live block. -/
def fresh_heap : Heap := fun _ => none

/-- A file as `xen_shm_open` receives it: no private data yet. -/
def new_file : file := { private_data := none }

/-- Memory holding zero everywhere. -/
def zero_mem : Mem := fun _ => 0

/-- A block as `kmalloc` may hand it out: arbitrary contents. -/
def stale_block : xen_shm_instance_data :=
  { state := 0xaa, pages_count := 0xbb, pages_phys_addr := 0xcc, local_domid := 0xdd,
    distant_domid := 0xee, grant_map_handles := [], local_ec_port := 1, dist_ec_port := 2 }

theorem take_drop_split (l : List Nat) (off r d : Nat) (hr : r ≤ d) :
    (l.drop off).take r ++ (l.drop (off + r)).take (d - r) = (l.drop off).take d := by
  have h1 : d = r + (d - r) := by omega
  conv_rhs => rw [h1, List.take_add]
  rw [List.drop_drop]

theorem inner_loop_finishes (rs : Nat → Int) :
    ∀ (fuel k : Nat) (v : WriterVars), v.offset ≤ v.msg_len → v.msg_len < SIZE_RANGE →
      v.msg_len - v.offset ≤ fuel →
      (∀ j, v.offset + results_sum rs k j < v.msg_len →
        0 < rs (k + j) ∧
          rs (k + j) ≤ ((v.msg_len - (v.offset + results_sum rs k j) : Nat) : Int)) →
      ∃ v1, inner_loop rs fuel k v = LoopOutcome.finished v1 ∧ v1.offset = v.msg_len ∧
        v1.msg_len = v.msg_len ∧ v1.buffer = v.buffer ∧
        v1.accepted = v.accepted ++ (v.buffer.drop v.offset).take (v.msg_len - v.offset) ∧
        v1.sent_bytes % UINT32_RANGE
          = (v.sent_bytes + (v.msg_len - v.offset)) % UINT32_RANGE ∧
        (v.offset < v.msg_len → v1.sent_bytes < UINT32_RANGE) := by
  intro fuel
  induction fuel with
  | zero =>
    intro k v hle _ hfuel _
    have heq : v.offset = v.msg_len := by omega
    refine ⟨v, by simp [inner_loop, heq], heq, rfl, rfl, ?_, ?_, ?_⟩
    · simp [heq]
    · simp [heq]
    · omega
  | succ fuel ih =>
    intro k v hle hlt hfuel hrs
    by_cases heq : v.offset = v.msg_len
    · refine ⟨v, by simp [inner_loop, heq], heq, rfl, rfl, ?_, ?_, ?_⟩
      · simp [heq]
      · simp [heq]
      · omega
    · have hpos : v.offset < v.msg_len := by omega
      obtain ⟨hr0, hr1⟩ := hrs 0 (by simpa [results_sum] using hpos)
      simp only [results_sum, Nat.add_zero] at hr0 hr1
      obtain ⟨r, hr⟩ := Int.eq_ofNat_of_zero_le (le_of_lt hr0)
      rw [hr] at hr0 hr1
      have hr0n : 0 < r := by exact_mod_cast hr0
      have hr1n : r ≤ v.msg_len - v.offset := by exact_mod_cast hr1
      have hoff : (v.offset + r) % SIZE_RANGE = v.offset + r := by
        apply Nat.mod_eq_of_lt
        omega
      have hstep : inner_loop rs (fuel + 1) k v
          = inner_loop rs fuel (k + 1) (write_iter v (r : Int)) := by
        simp only [inner_loop, heq, if_false, hr]
        rw [if_neg (by omega)]
      have hrs1 : ∀ j, (write_iter v (r : Int)).offset + results_sum rs (k + 1) j
            < (write_iter v (r : Int)).msg_len →
          0 < rs (k + 1 + j) ∧
            rs (k + 1 + j) ≤ (((write_iter v (r : Int)).msg_len
              - ((write_iter v (r : Int)).offset + results_sum rs (k + 1) j) : Nat) : Int) := by
        intro j hj
        simp only [write_iter, Int.toNat_ofNat, hoff] at hj ⊢
        have hsum : results_sum rs k (j + 1) = r + results_sum rs (k + 1) j := by
          simp [results_sum, hr]
        have hidx : k + (j + 1) = k + 1 + j := by omega
        have h := hrs (j + 1) (by rw [hsum]; omega)
        rw [hsum, hidx] at h
        have harg : v.offset + (r + results_sum rs (k + 1) j)
            = v.offset + r + results_sum rs (k + 1) j := by omega
        rw [harg] at h
        exact h
      obtain ⟨v1, h1, h2, h3, h4, h5, h6, h7⟩ :=
        ih (k + 1) (write_iter v (r : Int))
          (by simp only [write_iter, Int.toNat_ofNat, hoff]; omega)
          (by simpa [write_iter] using hlt)
          (by simp only [write_iter, Int.toNat_ofNat, hoff]; omega)
          hrs1
      refine ⟨v1, by rw [hstep, h1], ?_, ?_, ?_, ?_, ?_, ?_⟩
      · simpa [write_iter] using h2
      · simpa [write_iter] using h3
      · simpa [write_iter] using h4
      · rw [h5]
        simp only [write_iter, Int.toNat_ofNat, hoff, List.append_assoc]
        congr 1
        have : v.msg_len - (v.offset + r) = v.msg_len - v.offset - r := by omega
        rw [this]
        exact take_drop_split v.buffer v.offset r (v.msg_len - v.offset) hr1n
      · rw [h6]
        simp only [write_iter, Int.toNat_ofNat, hoff]
        rw [Nat.mod_add_mod]
        congr 1
        omega
      · intro _
        by_cases hdone : v.offset + r = v.msg_len
        · have hz : (write_iter v (r : Int)).offset = (write_iter v (r : Int)).msg_len := by
            simp only [write_iter, Int.toNat_ofNat, hoff]
            exact hdone
          have hfin : inner_loop rs fuel (k + 1) (write_iter v (r : Int))
              = LoopOutcome.finished (write_iter v (r : Int)) := by
            cases fuel <;> simp [inner_loop, hz]
          rw [hfin] at h1
          injection h1 with h1
          rw [← h1]
          simp only [write_iter, Int.toNat_ofNat]
          exact Nat.mod_lt _ (by unfold UINT32_RANGE; positivity)
        · apply h7
          simp only [write_iter, Int.toNat_ofNat, hoff]
          omega

/-! ### `xen_shm.h`: page counts -/

/-- C6: `XEN_SHM_MAX_SHARED_PAGES` is 15, and for every number `N` of payload
pages with `1 ≤ N ≤ XEN_SHM_MAX_SHARED_PAGES` the total `N + 1` (payload pages
plus the meta page) is at most `XEN_SHM_ALLOC_ALIGNED_PAGES = 16`, fits the
`uint8_t` field `pages_count`, and every page index below `N + 1` has a slot
in `grant_refs` and in `grant_map_handles`. -/
theorem page_count_fits (N : Nat) (h1 : 1 ≤ N) (h2 : N ≤ XEN_SHM_MAX_SHARED_PAGES) :
    XEN_SHM_MAX_SHARED_PAGES = 15 ∧ XEN_SHM_ALLOC_ALIGNED_PAGES = 16 ∧
      N + 1 ≤ XEN_SHM_ALLOC_ALIGNED_PAGES ∧ N + 1 < UINT8_RANGE ∧
      ∀ i, i < N + 1 → i < grant_refs_len ∧ i < grant_map_handles_len := by
  have hmax : XEN_SHM_MAX_SHARED_PAGES = 15 := rfl
  have hal : XEN_SHM_ALLOC_ALIGNED_PAGES = 16 := rfl
  have hu : UINT8_RANGE = 256 := rfl
  have hg : grant_refs_len = 16 := rfl
  have hm : grant_map_handles_len = 16 := rfl
  rw [hmax] at h2
  refine ⟨hmax, hal, ?_, ?_, ?_⟩
  · omega
  · omega
  · intro i hi
    omega

theorem page_count_fits_witness :
    1 ≤ 15 ∧ 15 ≤ XEN_SHM_MAX_SHARED_PAGES ∧ 15 + 1 ≤ XEN_SHM_ALLOC_ALIGNED_PAGES ∧
      15 + 1 < UINT8_RANGE :=
  ⟨by decide, by decide,
    (page_count_fits 15 (by decide) (by decide)).2.2.1,
    (page_count_fits 15 (by decide) (by decide)).2.2.2.1⟩

/-! ### `xen_shm_open` -/

/-- C5: `xen_shm_open` returns 0 exactly when the allocation succeeds. Then the
private data of the file is the block just allocated, holding what the
allocation held except that its state is `XEN_SHM_STATE_OPENED` and its
`local_domid` is the module value `xen_shm_domid`, every other block being
untouched. When the allocation fails it returns `-ENOMEM` and leaves the file
(and the heap) unchanged. -/
theorem xen_shm_open_result (xen_shm_domid : Nat)
    (kmalloc : Option (Nat × xen_shm_instance_data)) (heap : Heap) (filp : file) :
    (∀ p block, kmalloc = some (p, block) →
      (xen_shm_open xen_shm_domid kmalloc heap filp).ret = 0 ∧
        (xen_shm_open xen_shm_domid kmalloc heap filp).filp.private_data = some p ∧
        (xen_shm_open xen_shm_domid kmalloc heap filp).heap p
          = some { block with state := XEN_SHM_STATE_OPENED, local_domid := xen_shm_domid } ∧
        ∀ q, q ≠ p → (xen_shm_open xen_shm_domid kmalloc heap filp).heap q = heap q) ∧
    (kmalloc = none →
      (xen_shm_open xen_shm_domid kmalloc heap filp).ret = -ENOMEM ∧
        (xen_shm_open xen_shm_domid kmalloc heap filp).filp = filp ∧
        (xen_shm_open xen_shm_domid kmalloc heap filp).heap = heap) ∧
    ((xen_shm_open xen_shm_domid kmalloc heap filp).ret = 0 ↔ kmalloc ≠ none) := by
  refine ⟨?_, ?_, ?_⟩
  · intro p block hk
    subst hk
    refine ⟨rfl, rfl, ?_, ?_⟩
    · simp [xen_shm_open]
    · intro q hq
      simp [xen_shm_open, Function.update, hq]
  · intro hnone
    subst hnone
    exact ⟨rfl, rfl, rfl⟩
  · cases kmalloc with
    | none => simp [xen_shm_open, ENOMEM]
    | some pb => simp [xen_shm_open]

theorem xen_shm_open_result_witness :
    fresh_heap 100 = none ∧ new_file.private_data = none ∧ stale_block.local_domid ≠ 7 ∧
    stale_block.state ≠ XEN_SHM_STATE_OPENED ∧
    ((xen_shm_open 7 (some (100, stale_block)) fresh_heap new_file).ret = 0 ∧
      (xen_shm_open 7 (some (100, stale_block)) fresh_heap new_file).filp.private_data
        = some 100 ∧
      (xen_shm_open 7 (some (100, stale_block)) fresh_heap new_file).heap 100
        = some { stale_block with state := XEN_SHM_STATE_OPENED, local_domid := 7 } ∧
      ∀ q, q ≠ 100 →
        (xen_shm_open 7 (some (100, stale_block)) fresh_heap new_file).heap q = fresh_heap q) ∧
    ((xen_shm_open 7 none fresh_heap new_file).ret = -ENOMEM ∧
      (xen_shm_open 7 none fresh_heap new_file).filp = new_file ∧
      (xen_shm_open 7 none fresh_heap new_file).heap = fresh_heap) :=
  ⟨rfl, rfl, by decide, by decide,
    (xen_shm_open_result 7 (some (100, stale_block)) fresh_heap new_file).1 100 stale_block rfl,
    (xen_shm_open_result 7 none fresh_heap new_file).2.1 rfl⟩

/-! ### `xen_shm_release` -/

/-- Releasing a file frees the block its private data points to, whatever the
block holds. -/
theorem xen_shm_release_frees_instance (heap : Heap) (filp : file) (p : Nat)
    (hp : filp.private_data = some p) :
    (xen_shm_release heap filp).ret = 0 ∧ (xen_shm_release heap filp).heap p = none := by
  simp [xen_shm_release, kfree, hp]

/-- No path of `xen_shm_ioctl` changes the instance data. -/
theorem xen_shm_ioctl_keeps_instance (env : IoctlEnv) (instance_data : xen_shm_instance_data)
    (mem : Mem) (cmd arg : Nat) :
    (xen_shm_ioctl env instance_data mem cmd arg).instance_data = instance_data := by
  unfold xen_shm_ioctl
  simp only
  repeat (first | rfl | split)

/-- C3, the code at the failing input: on an instance in state
`XEN_SHM_STATE_OPENED`, both `XEN_SHM_IOCTL_INIT_OFFERER` and
`XEN_SHM_IOCTL_INIT_RECEIVER` return 0 and leave the state
`XEN_SHM_STATE_OPENED`, which is neither `XEN_SHM_STATE_OFFERER` nor
`XEN_SHM_STATE_RECEIVER`. -/
theorem ioctl_init_leaves_state_opened :
    (xen_shm_ioctl (sample_env true) (opened_instance 7) zero_mem
        XEN_SHM_IOCTL_INIT_OFFERER 1000).ret = some 0 ∧
      (xen_shm_ioctl (sample_env true) (opened_instance 7) zero_mem
        XEN_SHM_IOCTL_INIT_OFFERER 1000).instance_data.state = XEN_SHM_STATE_OPENED ∧
      (xen_shm_ioctl (sample_env true) (opened_instance 7) zero_mem
        XEN_SHM_IOCTL_INIT_RECEIVER 1000).ret = some 0 ∧
      (xen_shm_ioctl (sample_env true) (opened_instance 7) zero_mem
        XEN_SHM_IOCTL_INIT_RECEIVER 1000).instance_data.state = XEN_SHM_STATE_OPENED ∧
      XEN_SHM_STATE_OPENED ≠ XEN_SHM_STATE_OFFERER ∧
      XEN_SHM_STATE_OPENED ≠ XEN_SHM_STATE_RECEIVER := by
  refine ⟨rfl, rfl, rfl, rfl, by decide, by decide⟩

/-- C4, the code at the failing input: a `XEN_SHM_IOCTL_GET_DOMID` call on an
instance with `local_domid = 7` returns 0, its one user copy is
`__put_user` with destination `&arg` (the stack slot 5000 of the parameter)
instead of the user pointer 1000, and the `local_domid` field of the user
structure still holds what it held before, 0. -/
theorem ioctl_get_domid_misses_user_struct :
    (xen_shm_ioctl (sample_env true) (opened_instance 7) zero_mem
        (sample_env true).XEN_SHM_IOCTL_GET_DOMID 1000).ret = some 0 ∧
      (xen_shm_ioctl (sample_env true) (opened_instance 7) zero_mem
        (sample_env true).XEN_SHM_IOCTL_GET_DOMID 1000).copies
        = [UserCopy.put_user (sample_env true).addr_getdomid_karg (sample_env true).addr_arg] ∧
      (sample_env true).addr_arg ≠ 1000 ∧
      (xen_shm_ioctl (sample_env true) (opened_instance 7) zero_mem
        (sample_env true).XEN_SHM_IOCTL_GET_DOMID 1000).mem
        (1000 + (sample_env true).local_domid_offset) = 0 ∧
      zero_mem (1000 + (sample_env true).local_domid_offset) = 0 ∧
      (opened_instance 7).local_domid = 7 := by
  refine ⟨rfl, rfl, by decide, ?_, rfl, rfl⟩
  decide

/-- C8, the code at the failing input: the direction bits of the command
numbers `0xf01` and `0xf02` are zero, so with an `access_ok` that rejects
every pointer `xen_shm_ioctl` performs no access check at all, runs both
unchecked copies and returns 0 instead of `-EFAULT`. -/
theorem ioctl_init_skips_access_check :
    IOC_TYPE XEN_SHM_IOCTL_INIT_OFFERER = (sample_env false).XEN_SHM_MAGIC_NUMBER ∧
      IOC_TYPE XEN_SHM_IOCTL_INIT_RECEIVER = (sample_env false).XEN_SHM_MAGIC_NUMBER ∧
      IOC_DIR XEN_SHM_IOCTL_INIT_OFFERER = 0 ∧ IOC_DIR XEN_SHM_IOCTL_INIT_RECEIVER = 0 ∧
      (sample_env false).access_ok VERIFY_READ 1000 0 = false ∧
      (sample_env false).access_ok VERIFY_WRITE 1000 0 = false ∧
      (xen_shm_ioctl (sample_env false) (opened_instance 7) zero_mem
        XEN_SHM_IOCTL_INIT_OFFERER 1000).checks = [] ∧
      (xen_shm_ioctl (sample_env false) (opened_instance 7) zero_mem
        XEN_SHM_IOCTL_INIT_OFFERER 1000).copies
        = [UserCopy.get_user 5000, UserCopy.put_user 5008 5000] ∧
      (xen_shm_ioctl (sample_env false) (opened_instance 7) zero_mem
        XEN_SHM_IOCTL_INIT_OFFERER 1000).ret = some 0 ∧
      (xen_shm_ioctl (sample_env false) (opened_instance 7) zero_mem
        XEN_SHM_IOCTL_INIT_RECEIVER 1000).checks = [] ∧
      (xen_shm_ioctl (sample_env false) (opened_instance 7) zero_mem
        XEN_SHM_IOCTL_INIT_RECEIVER 1000).copies
        = [UserCopy.get_user 5000, UserCopy.put_user 5016 5000] ∧
      (xen_shm_ioctl (sample_env false) (opened_instance 7) zero_mem
        XEN_SHM_IOCTL_INIT_RECEIVER 1000).ret = some 0 := by
  refine ⟨rfl, rfl, rfl, rfl, rfl, rfl, rfl, rfl, rfl, rfl, rfl, rfl⟩

/-- C9, the code at the failing input: the commands `XEN_SHM_IOCTL_WAIT` and
`XEN_SHM_IOCTL_SSIG` pass the magic-number and access checks and reach
`return retval` with `retval` never assigned. -/
theorem ioctl_wait_ssig_return_unassigned :
    IOC_TYPE XEN_SHM_IOCTL_WAIT = (sample_env true).XEN_SHM_MAGIC_NUMBER ∧
      IOC_TYPE XEN_SHM_IOCTL_SSIG = (sample_env true).XEN_SHM_MAGIC_NUMBER ∧
      (xen_shm_ioctl (sample_env true) (opened_instance 7) zero_mem
        XEN_SHM_IOCTL_WAIT 1000).ret = none ∧
      (xen_shm_ioctl (sample_env true) (opened_instance 7) zero_mem
        XEN_SHM_IOCTL_SSIG 1000).ret = none := by
  refine ⟨rfl, rfl, rfl, rfl⟩

/-! ### `test/pipe_writer.c` -/

/-- C1, counterexample: with `sent_bytes = 4294967295`, a one-byte chunk and a
write that takes the byte (`0 < 1 ≤ msg_len - offset = 1`), the loop ends
with `offset = msg_len` and the accepted bytes equal to the chunk, but
`sent_bytes` is 0: it has not increased by `msg_len = 1`. -/
theorem transmit_loop_sent_bytes_wraps :
    ∃ v, inner_loop (write_each 1) 1 0 (begin_chunk wrap_vars [7]) = LoopOutcome.finished v ∧
      v.offset = v.msg_len ∧ v.msg_len = 1 ∧ v.accepted = [7] ∧ v.sent_bytes = 0 ∧
      v.sent_bytes ≠ wrap_vars.sent_bytes + 1 :=
  ⟨_, rfl, rfl, rfl, rfl, rfl, by decide⟩

/-- C1, amended: for every chunk of length `msg_len` with `1 ≤ msg_len ≤ 512`
and every sequence `rs` of `xen_shm_pipe_write` results in which each result
`r`, as long as `offset` (the sum of the earlier results) is short of
`msg_len`, satisfies `0 < r ≤ msg_len - offset`, the inner loop terminates
(within `msg_len` iterations) with `offset = msg_len`, the segments accepted
by the successive writes concatenate to exactly the chunk, and `sent_bytes`
has increased by `msg_len` modulo `2 ^ 32`: by exactly `msg_len` when the sum
stays below `2 ^ 32`. -/
theorem transmit_loop_sends_chunk (rs : Nat → Int) (v0 : WriterVars)
    (chunk : List Nat) (fuel : Nat)
    (hrs : ∀ k, results_sum rs 0 k < chunk.length →
      0 < rs k ∧ rs k ≤ ((chunk.length - results_sum rs 0 k : Nat) : Int))
    (h1 : 1 ≤ chunk.length) (h2 : chunk.length ≤ BUFFER_SIZE) (hfuel : chunk.length ≤ fuel) :
    ∃ v, inner_loop rs fuel 0 (begin_chunk v0 chunk) = LoopOutcome.finished v ∧
      v.offset = chunk.length ∧ v.msg_len = chunk.length ∧
      v.accepted = v0.accepted ++ chunk ∧
      v.sent_bytes = (v0.sent_bytes + chunk.length) % UINT32_RANGE ∧
      (v0.sent_bytes + chunk.length < UINT32_RANGE →
        v.sent_bytes = v0.sent_bytes + chunk.length) := by
  have hsize : (begin_chunk v0 chunk).msg_len < SIZE_RANGE := by
    simp only [begin_chunk, SIZE_RANGE]
    unfold BUFFER_SIZE at h2
    omega
  obtain ⟨v, hv, hoff, hlen, _, hacc, hsent, hlt⟩ :=
    inner_loop_finishes rs fuel 0 (begin_chunk v0 chunk) (Nat.zero_le _) hsize
      (by simpa [begin_chunk] using hfuel)
      (by simpa [begin_chunk] using hrs)
  have hlt2 : v.sent_bytes < UINT32_RANGE := hlt (by simpa [begin_chunk] using h1)
  have hsent2 : v.sent_bytes = (v0.sent_bytes + chunk.length) % UINT32_RANGE := by
    rw [← Nat.mod_eq_of_lt hlt2, hsent]
    simp [begin_chunk]
  refine ⟨v, hv, hoff, hlen, ?_, hsent2, ?_⟩
  · rw [hacc]
    simp [begin_chunk, read_into]
  · intro hno
    rw [hsent2, Nat.mod_eq_of_lt hno]

theorem results_sum_write_each_one (k j : Nat) : results_sum (write_each 1) k j = j := by
  induction j generalizing k with
  | zero => rfl
  | succ j ih =>
    simp only [results_sum, ih]
    simp [write_each]
    omega

theorem transmit_loop_sends_chunk_witness :
    ∃ v, inner_loop (write_each 1) 3 0
        (begin_chunk (initial_vars (List.replicate 512 0)) [1, 2, 3])
        = LoopOutcome.finished v ∧
      v.offset = 3 ∧ v.msg_len = 3 ∧ v.accepted = [] ++ [1, 2, 3] ∧
      v.sent_bytes = (0 + 3) % UINT32_RANGE ∧
      (0 + 3 < UINT32_RANGE → v.sent_bytes = 0 + 3) :=
  transmit_loop_sends_chunk (write_each 1) (initial_vars (List.replicate 512 0)) [1, 2, 3] 3
    (fun k hk => by
      rw [results_sum_write_each_one] at hk ⊢
      simp only [write_each, List.length_cons, List.length_nil] at hk ⊢
      constructor
      · decide
      · have : 1 ≤ 0 + 1 + 1 + 1 - k := by omega
        exact_mod_cast this)
    (by decide) (by decide) (by decide)

theorem contains_write_append (l : List Ev) (e : Ev) (he : e ≠ Ev.write) :
    (l ++ [e]).contains Ev.write = l.contains Ev.write := by
  induction l with
  | nil => cases e <;> simp_all
  | cons a t ih => cases a <;> simp_all

theorem write_after_free_append (l : List Ev) (e : Ev) (he : e ≠ Ev.write) :
    write_after_free (l ++ [e]) = write_after_free l := by
  induction l with
  | nil => cases e <;> simp [write_after_free]
  | cons a t ih =>
    cases a with
    | write =>
      show write_after_free (t ++ [e]) = write_after_free t
      exact ih
    | free =>
      show ((t ++ [e]).contains Ev.write || write_after_free (t ++ [e]))
        = (t.contains Ev.write || write_after_free t)
      rw [ih, contains_write_append t e he]
    | exit =>
      show write_after_free (t ++ [e]) = write_after_free t
      exact ih

theorem write_after_free_append_write (l : List Ev) (h : l.count Ev.free = 0) :
    write_after_free (l ++ [Ev.write]) = false := by
  induction l with
  | nil => rfl
  | cons a t ih =>
    cases a with
    | write =>
      show write_after_free (t ++ [Ev.write]) = false
      apply ih
      simpa using h
    | free => simp at h
    | exit =>
      show write_after_free (t ++ [Ev.write]) = false
      apply ih
      simpa using h

theorem step_preserves_inv (p : Proc) (i : Inp) (h : ProcInv p) : ProcInv (step p i) := by
  obtain ⟨pc, vars, hd, evs⟩ := p
  obtain ⟨hw, hc⟩ := h
  cases i with
  | sigint =>
    cases pc <;> cases hd <;> simp_all [step, ProcInv]
  | stdin chunk =>
    cases pc
    case at_read =>
      by_cases hlen : 0 < chunk.length
      · by_cases hq : (begin_chunk vars chunk).offset = (begin_chunk vars chunk).msg_len
        · simp_all [step, ProcInv]
        · simp_all [step, ProcInv]
      · simp_all [step, ProcInv]
    all_goals simp_all [step, ProcInv]
  | stdin_error =>
    cases pc <;> simp_all [step, ProcInv]
  | wr ret =>
    cases pc
    case at_write =>
      have hww := write_after_free_append_write evs hc.2
      by_cases hret : ret ≤ 0
      · simp [step, ProcInv, hret, hww, hc.2]
      · by_cases hq : (write_iter vars ret).offset = (write_iter vars ret).msg_len
        · simp [step, ProcInv, hret, hq, hww, hc.1, hc.2]
        · simp [step, ProcInv, hret, hq, hww, hc.1, hc.2]
    all_goals simp_all [step, ProcInv]
  | tick =>
    have hwf := write_after_free_append evs Ev.free (by decide)
    have hwe := write_after_free_append evs Ev.exit (by decide)
    cases pc
    case clean_free =>
      simp only [ProcInv] at hc
      rcases hc with hc | ⟨hc, hh⟩
      · simp_all [step, ProcInv]
      · simp_all [step, ProcInv]
    case clean_exit =>
      simp only [ProcInv] at hc
      rcases hc with hc | ⟨hc, hh⟩
      · simp_all [step, ProcInv]
      · simp_all [step, ProcInv]
    all_goals simp_all [step, ProcInv]

theorem run_preserves_inv (inputs : List Inp) :
    ∀ p : Proc, ProcInv p → ProcInv (run p inputs) := by
  induction inputs with
  | nil =>
    intro p h
    exact h
  | cons i rest ih =>
    intro p h
    exact ih (step p i) (step_preserves_inv p i h)

/-- Whatever is read, written and signalled after the connection: no
`xen_shm_pipe_write` follows a `xen_shm_pipe_free`, and a process that has
exited has called `xen_shm_pipe_free` once or twice. -/
theorem pipe_writer_free_bounds (stale : List Nat) (inputs : List Inp) :
    write_after_free (run (connected stale) inputs).evs = false ∧
      ((run (connected stale) inputs).pc = Pc.exited →
        1 ≤ (run (connected stale) inputs).evs.count Ev.free ∧
          (run (connected stale) inputs).evs.count Ev.free ≤ 2) := by
  have h := run_preserves_inv inputs (connected stale)
    (by simp [ProcInv, connected, write_after_free])
  refine ⟨h.1, ?_⟩
  intro hpc
  have h2 := h.2
  rw [hpc] at h2
  exact h2

/-- C7, the code at the failing input: `read` reports end of file, `main` calls
`clean(0)`, which calls `xen_shm_pipe_free`; a `SIGINT` delivered before
`exit` runs the handler `clean`, which calls `xen_shm_pipe_free` again. The
process exits having freed the pipe twice. -/
theorem pipe_writer_frees_twice :
    (run (connected (List.replicate 512 0))
        [Inp.stdin [], Inp.tick, Inp.sigint, Inp.tick, Inp.tick]).pc = Pc.exited ∧
      (run (connected (List.replicate 512 0))
        [Inp.stdin [], Inp.tick, Inp.sigint, Inp.tick, Inp.tick]).evs
        = [Ev.free, Ev.free, Ev.exit] ∧
      ((run (connected (List.replicate 512 0))
        [Inp.stdin [], Inp.tick, Inp.sigint, Inp.tick, Inp.tick]).evs.count Ev.free) = 2 := by
  refine ⟨rfl, rfl, rfl⟩

set_option maxRecDepth 16384 in
/-- C10, the code at the failing input: for the one-byte chunk `[1]` taken whole
by the write, the checksum loop reads `buffer[1]`, not the accepted byte
`buffer[0]`, and `checksum` is 200 where the sum over the accepted bytes is
231; for a 512-byte chunk taken whole it reads `buffer[512]`, outside the
array. -/
theorem checksum_reads_after_advanced_offset :
    (∃ v, inner_loop (write_each 1) 1 0 (begin_chunk (initial_vars (List.replicate 512 0)) [1])
        = LoopOutcome.finished v ∧
      v.accepted = [1] ∧ v.indices = [1] ∧ v.checksum = some 200 ∧
      checksum_of_bytes v.accepted = 231) ∧
    (∃ u, inner_loop (write_each 512) 1 0
        (begin_chunk (initial_vars (List.replicate 512 0)) (List.replicate 512 1))
        = LoopOutcome.finished u ∧
      u.accepted = List.replicate 512 1 ∧ (BUFFER_SIZE : Int) ∈ u.indices ∧
      u.checksum = none) := by
  constructor
  · exact ⟨_, rfl, rfl, rfl, rfl, rfl⟩
  · refine ⟨_, rfl, ?_, ?_, ?_⟩
    · decide
    · decide
    · decide

end XenShm
